import Mathlib

/-!
Shallow embedding of the credential-and-token lifecycle manager
(`core/providers/auth/r2r_auth.py`, class `R2RAuthProvider`).

Errors raised by the Python code are `R2RException(status_code, message)`
and `HTTPException(status_code, detail)`; both are modelled by `AuthError`.
The collaborators (Credential Cipher = `crypto_provider`, Directory Store =
`database_provider`, Notifier = `email_provider`) are outside the shown
source; they are modelled as explicit function records / association lists,
with the store error contracts modelled from the spec where the source only
shows the call site.  Time is an integer count of seconds (`now`); Python
`datetime` arithmetic becomes integer arithmetic.
-/

namespace R2RAuth

/-- Errors: `r2r` models `R2RException(status_code, message)`, `http` models
`HTTPException(status_code, detail)` (the two are distinct Python types, and
`except R2RException` catches only the former). -/
inductive AuthError where
  | r2r (status_code : Nat) (message : String)
  | http (status_code : Nat) (detail : String)
deriving DecidableEq, Repr

/-- Decidable equality for `Except`, so that results can be compared by
evaluation. -/
instance {ε : Type u} {α : Type v} [DecidableEq ε] [DecidableEq α] :
    DecidableEq (Except ε α) := fun x y =>
  match x, y with
  | .ok a, .ok b =>
    if h : a = b then isTrue (h ▸ rfl) else isFalse fun hc => h (by cases hc; rfl)
  | .error a, .error b =>
    if h : a = b then isTrue (h ▸ rfl) else isFalse fun hc => h (by cases hc; rfl)
  | .ok _, .error _ => isFalse fun hc => Except.noConfusion hc
  | .error _, .ok _ => isFalse fun hc => Except.noConfusion hc

/-- Decoded payload returned by the cipher: Python `payload.get(k)` yields
`None` for an absent key, hence `Option` fields (`sub`, `token_type`, `exp`). -/
structure Payload where
  sub : Option String
  token_type : Option String
  exp : Option Int
deriving DecidableEq, Repr

/-- The `TokenData` result of `decode_token`. -/
structure TokenData where
  email : String
  token_type : String
  exp : Int
deriving DecidableEq, Repr

/-- Credential Cipher collaborator (`crypto_provider`): only the operations the
embedded methods call.  `verify_secure_token` returns `none` on rejection;
`generate_secure_token` receives the `sub` and `token_type` entries of the data
dict plus the expiry; `verify_password` returns `none` when the Python call
raises (login wraps it in a try/except). -/
structure CryptoProvider where
  verify_secure_token : String → Option Payload
  generate_secure_token : String → String → Int → String
  verify_api_key : String → String → Bool
  verify_password : String → String → Option Bool
  generate_verification_code : String
deriving Inhabited

/-- User row held by the Directory Store.  `hashed_password = none` models a
stored value that is not a Python `str` (the `isinstance` check in `login`). -/
structure User where
  id : Nat
  email : String
  hashed_password : Option String
  is_active : Bool
  is_verified : Bool
  name : Option String
deriving DecidableEq, Repr

/-- API key row: public key id, hashed secret, owning user id. -/
structure ApiKeyRecord where
  key_id : String
  hashed_key : String
  user_id : Nat
deriving DecidableEq, Repr

/-- Directory Store state: the token blacklist plus the rows the embedded
methods read or write. -/
structure DB where
  blacklist : List String
  users : List User
  apiKeys : List ApiKeyRecord
  verificationCodes : List (String × Nat)
  resetTokens : List (Nat × String × Int)
deriving DecidableEq, Repr

/-- Notifier collaborator: password-reset email dispatch, allowed to fail
(arguments: recipient email, reset token, first name). -/
structure EmailProvider where
  send_password_reset_email : String → String → String → Except AuthError Unit

/-- Configuration surface used by the embedded methods. -/
structure AuthConfig where
  access_token_lifetime_in_minutes : Int
  refresh_token_lifetime_in_days : Int
  require_email_verification : Bool
deriving DecidableEq, Repr

/-! Error values, named after the spec taxonomy, with the exact status codes
and messages the source raises. -/

/-- Spec kind `Revoked`: raised by `decode_token` for a blacklisted token. -/
def revokedError : AuthError := .r2r 401 "Token has been invalidated"

/-- Spec kind `Invalid`: raised by `decode_token` when the cipher rejects. -/
def invalidTokenError : AuthError := .r2r 401 "Invalid or expired token"

/-- Spec kind `MalformedClaims`: missing sub, token_type or exp. -/
def malformedClaimsError : AuthError := .r2r 401 "Invalid token claims"

/-- Spec kind `Expired`: decoded expiry is in the past. -/
def expiredError : AuthError := .r2r 401 "Token has expired"

/-- Spec kind `WrongTokenType`: `refresh_access_token` on a non-refresh token. -/
def wrongTokenTypeError : AuthError := .r2r 401 "Invalid refresh token"

/-- Spec kind `InvalidFormat`: API key string without a `.` separator. -/
def invalidFormatError : AuthError := .r2r 401 "Invalid API key format"

/-- Spec kind `InvalidKey`: unknown public id, or secret/hash mismatch. -/
def invalidKeyError : AuthError := .r2r 401 "Invalid API key"

/-- Spec kind `InactiveAccount`: API key owner is inactive. -/
def inactiveAccountError : AuthError := .r2r 401 "User account is inactive"

/-- Spec kind `InvalidCredentials` at login: wrong password. -/
def invalidCredentialsError : AuthError := .r2r 401 "Incorrect email or password"

/-- Spec kind `EmailNotVerified`. -/
def emailNotVerifiedError : AuthError := .r2r 401 "Email not verified"

/-- Modelled from the spec: the Directory Store user lookup fails with a
not-found `R2RException` when no user exists; the status code 404 is witnessed
in-source by `request_password_reset`, which tests `e.status_code == 404` with
the comment that the user does not exist. -/
def userNotFoundError : AuthError := .r2r 404 "User not found"

/-- Modelled from the spec: absence of a user bound to a verification code is
an `InvalidCode` failure raised by the store lookup (the source calls the
lookup without a `None` check and the spec says `verifyEmail` fails with
`InvalidCode` when no user is bound to the code). -/
def invalidCodeError : AuthError := .r2r 400 "Invalid or expired verification code"

/-! Directory Store operations. -/

/-- Store lookup `token_handler.is_token_blacklisted`. -/
def is_token_blacklisted (db : DB) (token : String) : Bool :=
  db.blacklist.contains token

/-- Store write `token_handler.blacklist_token`. -/
def blacklist_token (db : DB) (token : String) : DB :=
  { db with blacklist := token :: db.blacklist }

/-- Modelled from the spec: `users_handler.get_user_by_email` returns the user
row, and absence of the user is a not-found store failure (see
`userNotFoundError`). -/
def get_user_by_email (db : DB) (email : String) : Except AuthError User :=
  match db.users.find? (fun u => u.email == email) with
  | some u => .ok u
  | none => .error userNotFoundError

/-- Modelled from the spec: `users_handler.get_user_by_id`, same not-found
contract as the lookup by email. -/
def get_user_by_id (db : DB) (uid : Nat) : Except AuthError User :=
  match db.users.find? (fun u => u.id == uid) with
  | some u => .ok u
  | none => .error userNotFoundError

/-- Store lookup `users_handler.get_api_key_record`; the source checks the
result for falsiness, so absence is `none` here. -/
def get_api_key_record (db : DB) (kid : String) : Option ApiKeyRecord :=
  db.apiKeys.find? (fun r => r.key_id == kid)

/-- Modelled from the spec: `users_handler.get_user_id_by_verification_code`
fails with `InvalidCode` when no user is bound to the code (the source has no
`None` check on the result). -/
def get_user_id_by_verification_code (db : DB) (code : String) :
    Except AuthError Nat :=
  match db.verificationCodes.find? (fun p => p.1 == code) with
  | some p => .ok p.2
  | none => .error invalidCodeError

/-- Store write `users_handler.mark_user_as_verified`. -/
def mark_user_as_verified (db : DB) (uid : Nat) : DB :=
  { db with users := db.users.map (fun u =>
      if u.id == uid then { u with is_verified := true } else u) }

/-- Store write `users_handler.remove_verification_code`. -/
def remove_verification_code (db : DB) (code : String) : DB :=
  { db with verificationCodes := db.verificationCodes.filter (fun p => p.1 != code) }

/-- Store write `users_handler.store_reset_token`; a new token supersedes any
prior one for the same user (spec: at most one active reset token per user). -/
def store_reset_token (db : DB) (uid : Nat) (tok : String) (expiry : Int) : DB :=
  { db with resetTokens :=
      (uid, tok, expiry) :: db.resetTokens.filter (fun p => p.1 != uid) }

/-! Token issuance (`create_access_token`, `create_refresh_token`).  Python
`timedelta(minutes=m)` and `timedelta(days=d)` become `60 * m` and
`86400 * d` seconds. -/

/-- `create_access_token`: data dict `{sub, token_type: "access"}`, expiry
`now + access lifetime in minutes`. -/
def create_access_token (crypto : CryptoProvider) (cfg : AuthConfig)
    (now : Int) (sub : String) : String :=
  crypto.generate_secure_token sub "access"
    (now + 60 * cfg.access_token_lifetime_in_minutes)

/-- `create_refresh_token`: data dict `{sub, token_type: "refresh"}`, expiry
`now + refresh lifetime in days`. -/
def create_refresh_token (crypto : CryptoProvider) (cfg : AuthConfig)
    (now : Int) (sub : String) : String :=
  crypto.generate_secure_token sub "refresh"
    (now + 86400 * cfg.refresh_token_lifetime_in_days)

/-- `decode_token`: blacklist check first, then cipher verification, then
presence of the three claims, then the independent expiry comparison
(strict `<` against the current time), finally the `TokenData`. -/
def decode_token (crypto : CryptoProvider) (db : DB) (now : Int)
    (token : String) : Except AuthError TokenData :=
  if is_token_blacklisted db token then
    .error revokedError
  else
    match crypto.verify_secure_token token with
    | none => .error invalidTokenError
    | some payload =>
      match payload.sub, payload.token_type, payload.exp with
      | some email, some token_type, some exp =>
        if exp < now then
          .error expiredError
        else
          .ok ⟨email, token_type, exp⟩
      | _, _, _ => .error malformedClaimsError

/-! API key authentication. -/

/-- Python `key_id, raw_key = api_key.split(".", 1)` over the character list:
`none` when the separator is absent (the Python unpacking raises
`ValueError`), otherwise the parts before and after the first separator. -/
def splitFirst (sep : Char) : List Char → Option (List Char × List Char)
  | [] => none
  | c :: cs =>
    if c = sep then some ([], cs)
    else
      match splitFirst sep cs with
      | some (a, b) => some (c :: a, b)
      | none => none

/-- Split an API key string on the first `.`. -/
def splitOnFirstDot (s : String) : Option (String × String) :=
  match splitFirst '.' s.data with
  | some (a, b) => some (⟨a⟩, ⟨b⟩)
  | none => none

/-- `authenticate_api_key`: split on the first `.` (`InvalidFormat` when the
separator is absent), look up the record by public id (`InvalidKey` when
absent), verify the raw secret against the stored hash (`InvalidKey` on
mismatch — the same error value as absence), load the owning user, reject an
inactive owner with `InactiveAccount`. -/
def authenticate_api_key (crypto : CryptoProvider) (db : DB)
    (api_key : String) : Except AuthError User :=
  match splitOnFirstDot api_key with
  | none => .error invalidFormatError
  | some (key_id, raw_key) =>
    match get_api_key_record db key_id with
    | none => .error invalidKeyError
    | some key_record =>
      if crypto.verify_api_key raw_key key_record.hashed_key then
        match get_user_by_id db key_record.user_id with
        | .error e => .error e
        | .ok u =>
          if u.is_active then .ok u else .error inactiveAccountError
      else .error invalidKeyError

/-! Credential resolver (`user`). -/

/-- Marker removal over character lists: `some rest` when the first list is a
leading segment of the second, else `none`. -/
def dropMarker : List Char → List Char → Option (List Char)
  | [], cs => some cs
  | p :: ps, c :: cs => if c = p then dropMarker ps cs else none
  | _ :: _, [] => none

/-- Python `token.removeprefix("Bearer ")`: the token without its leading
`"Bearer "` scheme marker when present, else the token unchanged. -/
def stripBearer (token : String) : String :=
  match dropMarker "Bearer ".data token.data with
  | some rest => ⟨rest⟩
  | none => token

/-- The `try` block of `user`: decode the token, reject a falsy (empty) email,
resolve the subject email to a user row. -/
def token_auth_attempt (crypto : CryptoProvider) (db : DB) (now : Int)
    (token : String) : Except AuthError User :=
  match decode_token crypto db now token with
  | .error e => .error e
  | .ok token_data =>
    if token_data.email = "" then
      .error (.r2r 401 "Could not validate credentials")
    else
      get_user_by_email db token_data.email

/-- `user`: attempt JWT authentication; on any `R2RException` fall back to API
key authentication on the same string with any `Bearer ` marker stripped
(an `HTTPException` would not be caught, though the try block raises none). -/
def user_resolve (crypto : CryptoProvider) (db : DB) (now : Int)
    (token : String) : Except AuthError User :=
  match token_auth_attempt crypto db now token with
  | .ok u => .ok u
  | .error (.r2r _ _) => authenticate_api_key crypto db (stripBearer token)
  | .error e => .error e

/-! Account lifecycle operations. -/

/-- `login`: load the user by email (the store's not-found failure
propagates), reject a non-string stored hash with an internal
`HTTPException(500)`, verify the password (a cipher exception becomes another
`HTTPException(500)`), reject a mismatch with `InvalidCredentials`, reject an
unverified user when verification is required, otherwise mint an
access/refresh pair.  The returned pair is `(access token, refresh token)`. -/
def login (crypto : CryptoProvider) (cfg : AuthConfig) (db : DB) (now : Int)
    (email password : String) : Except AuthError (String × String) :=
  match get_user_by_email db email with
  | .error e => .error e
  | .ok u =>
    match u.hashed_password with
    | none => .error (.http 500 "Invalid password hash in database")
    | some hp =>
      match crypto.verify_password password hp with
      | none => .error (.http 500 "Error during password verification")
      | some password_verified =>
        if password_verified then
          if !u.is_verified && cfg.require_email_verification then
            .error emailNotVerifiedError
          else
            .ok (create_access_token crypto cfg now u.email,
                 create_refresh_token crypto cfg now u.email)
        else .error invalidCredentialsError

/-- `refresh_access_token`: decode the presented token, require kind
`refresh` (else `WrongTokenType`), blacklist the presented string, then mint a
new access/refresh pair for the same subject.  Returns the post-state and the
pair; on error the state is unchanged. -/
def refresh_access_token (crypto : CryptoProvider) (cfg : AuthConfig)
    (db : DB) (now : Int) (refresh_token : String) :
    Except AuthError (DB × String × String) :=
  match decode_token crypto db now refresh_token with
  | .error e => .error e
  | .ok token_data =>
    if token_data.token_type ≠ "refresh" then
      .error wrongTokenTypeError
    else
      let db2 := blacklist_token db refresh_token
      .ok (db2,
           create_access_token crypto cfg now token_data.email,
           create_refresh_token crypto cfg now token_data.email)

/-- `logout`: unconditionally blacklist the token. -/
def logout (db : DB) (token : String) : DB × String :=
  (blacklist_token db token, "Logged out successfully")

/-- `verify_email`: resolve the code to a user id (the store lookup fails with
`InvalidCode` when no user is bound), mark the user verified, delete the
code. -/
def verify_email (db : DB) (email verification_code : String) :
    Except AuthError (DB × String) :=
  match get_user_id_by_verification_code db verification_code with
  | .error e => .error e
  | .ok user_id =>
    let db1 := mark_user_as_verified db user_id
    let db2 := remove_verification_code db1 verification_code
    .ok (db2, "Email verified successfully")

/-- First name passed to the Notifier: the first space-separated word of the
display name when it is truthy, else the part of the email before `@`. -/
def firstName (u : User) (email : String) : String :=
  match u.name with
  | some n => if n = "" then ((email.splitOn "@").headD "") else ((n.splitOn " ").headD "")
  | none => ((email.splitOn "@").headD "")

/-- The generic success message of `request_password_reset`. -/
def genericResetMsg : String := "If the email exists, a reset link has been sent"

/-- The `try` block of `request_password_reset`: load the user, store a fresh
reset token with a one-hour expiry, send the reset email.  Returns the
post-state together with the outcome. -/
def request_password_reset_attempt (crypto : CryptoProvider)
    (emailp : EmailProvider) (db : DB) (now : Int) (email : String) :
    DB × Except AuthError String :=
  match get_user_by_email db email with
  | .error e => (db, .error e)
  | .ok u =>
    match emailp.send_password_reset_email email crypto.generate_verification_code
        (firstName u email) with
    | .error e =>
      (store_reset_token db u.id crypto.generate_verification_code (now + 3600),
       .error e)
    | .ok _ =>
      (store_reset_token db u.id crypto.generate_verification_code (now + 3600),
       .ok genericResetMsg)

/-- `request_password_reset`: run the attempt; an `R2RException` whose status
code is 404 (the store's user-not-found failure) is swallowed and the generic
success message returned; any other failure propagates. -/
def request_password_reset (crypto : CryptoProvider) (emailp : EmailProvider)
    (db : DB) (now : Int) (email : String) : DB × Except AuthError String :=
  match request_password_reset_attempt crypto emailp db now email with
  | (db1, .ok m) => (db1, .ok m)
  | (db1, .error (.r2r 404 _)) => (db1, .ok genericResetMsg)
  | (db1, .error e) => (db1, .error e)

/-- Modelled from the spec: the store's
`clean_expired_blacklisted_tokens` maintenance sweep purges blacklist entries
past their own token expiry (entries whose token the cipher cannot decode, or
whose payload carries no expiry, are kept). -/
def clean_expired_blacklisted_tokens (crypto : CryptoProvider) (db : DB)
    (now : Int) : DB :=
  { db with blacklist := db.blacklist.filter (fun t =>
      match crypto.verify_secure_token t with
      | some p =>
        match p.exp with
        | some e => !(e < now)
        | none => true
      | none => true) }

/-! Operation traces, for the temporal claim about the blacklist. -/

/-- State-changing operations of the provider, for interleaving traces. -/
inductive AuthOp where
  | logoutOp (token : String)
  | refreshOp (token : String)
  | cleanOp
  | verifyEmailOp (email code : String)
  | requestResetOp (email : String)
deriving DecidableEq, Repr

/-- Post-state of one operation executed at time `now` (results discarded;
a failing operation leaves the state unchanged, as the Python exceptions
propagate before any later write). -/
def applyOp (crypto : CryptoProvider) (cfg : AuthConfig)
    (emailp : EmailProvider) (db : DB) (now : Int) : AuthOp → DB
  | .logoutOp t => (logout db t).1
  | .refreshOp t =>
    match refresh_access_token crypto cfg db now t with
    | .ok (db1, _, _) => db1
    | .error _ => db
  | .cleanOp => clean_expired_blacklisted_tokens crypto db now
  | .verifyEmailOp e c =>
    match verify_email db e c with
    | .ok (db1, _) => db1
    | .error _ => db
  | .requestResetOp e => (request_password_reset crypto emailp db now e).1

/-- Fold a timed trace of operations over a state. -/
def applyTrace (crypto : CryptoProvider) (cfg : AuthConfig)
    (emailp : EmailProvider) (db : DB) : List (Int × AuthOp) → DB
  | [] => db
  | p :: rest =>
    applyTrace crypto cfg emailp (applyOp crypto cfg emailp db p.1 p.2) rest

/-- Expiry claim the cipher reports for a token string, when any. -/
def tokenExp (crypto : CryptoProvider) (t : String) : Option Int :=
  match crypto.verify_secure_token t with
  | some p => p.exp
  | none => none

/-- Invariant behind the revocation claim: the token is still blacklisted, or
the cipher reports an expiry strictly below the bound. -/
def blacklistedOrExpired (crypto : CryptoProvider) (t : String) (bound : Int)
    (db : DB) : Prop :=
  t ∈ db.blacklist ∨ ∃ e, tokenExp crypto t = some e ∧ e < bound

/-! Concrete fixtures, used to evaluate the theorems on explicit inputs. -/

/-- Concrete cipher: three known token strings decode to fixed payloads, all
other strings are rejected; API key verification compares the raw secret with
the stored value; password verification compares plaintexts and raises on the
sentinel hash `"BOOM"`. -/
def cryptoFix : CryptoProvider where
  verify_secure_token t :=
    if t = "acc-tok" then some ⟨some "a@x.com", some "access", some 3600⟩
    else if t = "ref-tok" then some ⟨some "a@x.com", some "refresh", some 100⟩
    else if t = "exp-tok" then some ⟨some "a@x.com", some "access", some 5⟩
    else none
  generate_secure_token _ tt _ := if tt = "access" then "acc-tok" else "ref-tok"
  verify_api_key raw h := raw == h
  verify_password pw h := if h = "BOOM" then none else some (pw == h)
  generate_verification_code := "code1"

/-- Concrete configuration: 60-minute access tokens, 7-day refresh tokens,
email verification required. -/
def cfgFix : AuthConfig := ⟨60, 7, true⟩

/-- Notifier that always succeeds. -/
def emailFix : EmailProvider := ⟨fun _ _ _ => .ok ()⟩

/-- Notifier that fails with a 404 `R2RException` that is not the store's
user-not-found failure. -/
def emailFail404 : EmailProvider :=
  ⟨fun _ _ _ => .error (.r2r 404 "Email service missing")⟩

/-- Verified active user with password `"pw1"`. -/
def userA : User := ⟨1, "a@x.com", some "pw1", true, true, none⟩

/-- Inactive user. -/
def userB : User := ⟨2, "b@x.com", some "pw2", false, true, none⟩

/-- Unverified active user. -/
def userC : User := ⟨3, "c@x.com", some "pw3", true, false, none⟩

/-- User whose stored password hash is not a string. -/
def userD : User := ⟨4, "d@x.com", none, true, true, none⟩

/-- Empty store. -/
def dbEmpty : DB := ⟨[], [], [], [], []⟩

/-- Store with the single token `"t"` blacklisted. -/
def dbBlack : DB := ⟨["t"], [], [], [], []⟩

/-- API key record `kid1` with secret `"sec1"`, owned by `userA`. -/
def rec1 : ApiKeyRecord := ⟨"kid1", "sec1", 1⟩

/-- API key record `kid2` with secret `"sec2"`, owned by the inactive
`userB`. -/
def rec2 : ApiKeyRecord := ⟨"kid2", "sec2", 2⟩

/-- Store with the four users, the two API key records and a verification
code `"code9"` bound to the unverified `userC`. -/
def dbFix : DB := ⟨[], [userA, userB, userC, userD], [rec1, rec2], [("code9", 3)], []⟩

/-! Theorems. -/

/-- C4: `decode_token` decides in order: blacklisted → `Revoked` (before any
cryptographic check, hence for every cipher), cipher rejection → `Invalid`,
missing subject/kind/expiry → `MalformedClaims`, decoded expiry strictly in
the past → `Expired`, otherwise the `TokenData` email/kind/expiry. -/
theorem C4_decode_order (crypto : CryptoProvider) (db : DB) (now : Int)
    (token : String) :
    (is_token_blacklisted db token = true →
      decode_token crypto db now token = .error revokedError) ∧
    (is_token_blacklisted db token = false →
      crypto.verify_secure_token token = none →
      decode_token crypto db now token = .error invalidTokenError) ∧
    (∀ p, is_token_blacklisted db token = false →
      crypto.verify_secure_token token = some p →
      (p.sub = none ∨ p.token_type = none ∨ p.exp = none) →
      decode_token crypto db now token = .error malformedClaimsError) ∧
    (∀ s k e, is_token_blacklisted db token = false →
      crypto.verify_secure_token token = some ⟨some s, some k, some e⟩ →
      e < now →
      decode_token crypto db now token = .error expiredError) ∧
    (∀ s k e, is_token_blacklisted db token = false →
      crypto.verify_secure_token token = some ⟨some s, some k, some e⟩ →
      ¬ e < now →
      decode_token crypto db now token = .ok ⟨s, k, e⟩) := by
  refine ⟨?_, ?_, ?_, ?_, ?_⟩
  · intro h
    simp [decode_token, h]
  · intro h1 h2
    simp [decode_token, h1, h2]
  · intro p h1 h2 h3
    obtain ⟨ps, pt, pe⟩ := p
    cases ps <;> cases pt <;> cases pe <;>
      simp_all [decode_token, h1]
  · intro s k e h1 h2 hlt
    simp [decode_token, h1, h2, hlt]
  · intro s k e h1 h2 hlt
    simp [decode_token, h1, h2, hlt]

/-- Concrete evaluation of `C4_decode_order`: the blacklisted token `"t"`
is rejected as `Revoked`. -/
theorem C4_decode_order_witness :
    decode_token cryptoFix dbBlack 0 "t" = .error revokedError :=
  (C4_decode_order cryptoFix dbBlack 0 "t").1 (by decide)

/-- C10: the expiry comparison at the interface is strict: a payload whose
expiry equals the current instant is accepted, and `Expired` arises only when
the decoded expiry is strictly earlier than the current time. -/
theorem C10_expiry_boundary (crypto : CryptoProvider) (db : DB) (now : Int)
    (token : String) :
    (∀ s k, is_token_blacklisted db token = false →
      crypto.verify_secure_token token = some ⟨some s, some k, some now⟩ →
      decode_token crypto db now token = .ok ⟨s, k, now⟩) ∧
    (∀ s k e, is_token_blacklisted db token = false →
      crypto.verify_secure_token token = some ⟨some s, some k, some e⟩ →
      decode_token crypto db now token = .error expiredError →
      e < now) := by
  constructor
  · intro s k h1 h2
    simp [decode_token, h1, h2]
  · intro s k e h1 h2 hdec
    by_cases hlt : e < now
    · exact hlt
    · exfalso
      simp [decode_token, h1, h2, hlt, expiredError] at hdec

/-- Concrete evaluation of `C10_expiry_boundary`: `"acc-tok"` carries expiry
3600 and is accepted at the instant 3600 exactly. -/
theorem C10_expiry_boundary_witness :
    decode_token cryptoFix dbEmpty 3600 "acc-tok" = .ok ⟨"a@x.com", "access", 3600⟩ :=
  (C10_expiry_boundary cryptoFix dbEmpty 3600 "acc-tok").1 "a@x.com" "access"
    (by decide) (by decide)

/-- C5: when the cipher round-trips the freshly issued access token and that
token is not blacklisted (and the configured lifetime is nonnegative),
verifying `issueAccessToken(s)` succeeds with kind `access` and subject
`s`. -/
theorem C5_issue_verify (crypto : CryptoProvider) (cfg : AuthConfig) (db : DB)
    (now : Int) (s : String)
    (hrt : crypto.verify_secure_token (create_access_token crypto cfg now s) =
      some ⟨some s, some "access",
        some (now + 60 * cfg.access_token_lifetime_in_minutes)⟩)
    (hbl : is_token_blacklisted db (create_access_token crypto cfg now s) = false)
    (hlt : 0 ≤ cfg.access_token_lifetime_in_minutes) :
    decode_token crypto db now (create_access_token crypto cfg now s) =
      .ok ⟨s, "access", now + 60 * cfg.access_token_lifetime_in_minutes⟩ := by
  have hnot : ¬ (now + 60 * cfg.access_token_lifetime_in_minutes < now) := by
    omega
  simp [decode_token, hbl, hrt, hnot]

/-- Concrete evaluation of `C5_issue_verify` with `cryptoFix`, subject
`"a@x.com"`, 60-minute lifetime, at time 0. -/
theorem C5_issue_verify_witness :
    decode_token cryptoFix dbEmpty 0 (create_access_token cryptoFix cfgFix 0 "a@x.com") =
      .ok ⟨"a@x.com", "access", 0 + 60 * cfgFix.access_token_lifetime_in_minutes⟩ :=
  C5_issue_verify cryptoFix cfgFix dbEmpty 0 "a@x.com" (by decide) (by decide)
    (by decide)

/-- List without the separator character splits to `none`. -/
theorem splitFirst_eq_none {sep : Char} {l : List Char} (h : sep ∉ l) :
    splitFirst sep l = none := by
  induction l with
  | nil => rfl
  | cons c cs ih =>
    have hc : ¬ c = sep := fun hcs => h (hcs ▸ List.mem_cons_self c cs)
    have ht : sep ∉ cs := fun hm => h (List.mem_cons_of_mem c hm)
    simp [splitFirst, hc, ih ht]

/-- C6: `authenticate_api_key` splits on the first `.`; an input with no
separator fails with `InvalidFormat`; an unknown public id and a hash
mismatch both fail with the identical error value `InvalidKey`; a matching
key owned by an inactive user fails with `InactiveAccount`. -/
theorem C6_api_key_errors (crypto : CryptoProvider) (db : DB)
    (api_key : String) :
    ('.' ∉ api_key.data →
      authenticate_api_key crypto db api_key = .error invalidFormatError) ∧
    (∀ kid raw, splitOnFirstDot api_key = some (kid, raw) →
      get_api_key_record db kid = none →
      authenticate_api_key crypto db api_key = .error invalidKeyError) ∧
    (∀ kid raw r, splitOnFirstDot api_key = some (kid, raw) →
      get_api_key_record db kid = some r →
      crypto.verify_api_key raw r.hashed_key = false →
      authenticate_api_key crypto db api_key = .error invalidKeyError) ∧
    (∀ kid raw r u, splitOnFirstDot api_key = some (kid, raw) →
      get_api_key_record db kid = some r →
      crypto.verify_api_key raw r.hashed_key = true →
      get_user_by_id db r.user_id = .ok u →
      u.is_active = false →
      authenticate_api_key crypto db api_key = .error inactiveAccountError) := by
  refine ⟨?_, ?_, ?_, ?_⟩
  · intro h
    simp [authenticate_api_key, splitOnFirstDot, splitFirst_eq_none h]
  · intro kid raw h1 h2
    simp [authenticate_api_key, h1, h2]
  · intro kid raw r h1 h2 h3
    simp [authenticate_api_key, h1, h2, h3]
  · intro kid raw r u h1 h2 h3 h4 h5
    simp [authenticate_api_key, h1, h2, h3, h4, h5]

/-- Concrete evaluation of `C6_api_key_errors`: the key `"kid2.sec2"` matches
its stored hash but its owner is inactive. -/
theorem C6_api_key_errors_witness :
    authenticate_api_key cryptoFix dbFix "kid2.sec2" = .error inactiveAccountError :=
  (C6_api_key_errors cryptoFix dbFix "kid2.sec2").2.2.2 "kid2" "sec2" rec2 userB
    (by decide) (by decide) (by decide) (by decide) (by decide)

/-- C1 fails as stated: two credential strings on which both the token
attempt and the API-key attempt fail give the resolver two different failure
values (`InvalidFormat` and `InvalidKey`), not one uniform
`InvalidCredentials` kind. -/
theorem C1_counterexample :
    token_auth_attempt cryptoFix dbEmpty 0 "abc" = .error invalidTokenError ∧
    user_resolve cryptoFix dbEmpty 0 "abc" = .error invalidFormatError ∧
    token_auth_attempt cryptoFix dbEmpty 0 "a.b" = .error invalidTokenError ∧
    user_resolve cryptoFix dbEmpty 0 "a.b" = .error invalidKeyError ∧
    invalidFormatError ≠ invalidKeyError := by
  exact ⟨by decide, by decide, by decide, by decide, by decide⟩

/-- C1 amended: when the token attempt fails (with any `R2RException`), the
resolver's overall outcome is exactly the API-key attempt's outcome on the
`Bearer `-stripped string — so an overall failure is the API-key failure and
never reveals the token attempt's failure; and a successfully decoded token
whose subject resolves to no user likewise falls back to the API-key
attempt rather than a distinct orphan-token outcome. -/
theorem C1_amended (crypto : CryptoProvider) (db : DB) (now : Int)
    (token : String) :
    (∀ s m e, token_auth_attempt crypto db now token = .error (.r2r s m) →
      authenticate_api_key crypto db (stripBearer token) = .error e →
      user_resolve crypto db now token = .error e) ∧
    (∀ td, decode_token crypto db now token = .ok td →
      td.email ≠ "" →
      get_user_by_email db td.email = .error userNotFoundError →
      user_resolve crypto db now token =
        authenticate_api_key crypto db (stripBearer token)) := by
  constructor
  · intro s m e h1 h2
    simp [user_resolve, h1, h2]
  · intro td h1 h2 h3
    simp [user_resolve, token_auth_attempt, h1, h2, h3, userNotFoundError]

/-- Concrete evaluation of `C1_amended`: a string that is no valid token but
carries the `Bearer ` marker and the inactive user's API key surfaces the
API-key attempt's `InactiveAccount` failure. -/
theorem C1_amended_witness :
    user_resolve cryptoFix dbFix 0 "Bearer kid2.sec2" = .error inactiveAccountError :=
  (C1_amended cryptoFix dbFix 0 "Bearer kid2.sec2").1 401 "Invalid or expired token"
    inactiveAccountError (by decide) (by decide)

/-- C7 divergence, evaluated on the code: a login for a non-existent email
fails with the store's 404 not-found error, while a wrong password for an
existing user fails with the 401 `InvalidCredentials` error — the two cases
are distinguishable, against the uniform-failure claim.  The remaining parts
of the claim hold: a correct password for an unverified user fails with
`EmailNotVerified`, and a non-string stored hash surfaces as an internal
`HTTPException(500)` distinct from `InvalidCredentials`. -/
theorem C7_login_divergence :
    login cryptoFix cfgFix dbFix 0 "z@x.com" "pw1" = .error userNotFoundError ∧
    login cryptoFix cfgFix dbFix 0 "a@x.com" "wrong" = .error invalidCredentialsError ∧
    userNotFoundError ≠ invalidCredentialsError ∧
    login cryptoFix cfgFix dbFix 0 "c@x.com" "pw3" = .error emailNotVerifiedError ∧
    login cryptoFix cfgFix dbFix 0 "d@x.com" "pw" =
      .error (.http 500 "Invalid password hash in database") ∧
    (AuthError.http 500 "Invalid password hash in database") ≠ invalidCredentialsError := by
  exact ⟨by decide, by decide, by decide, by decide, by decide, by decide⟩

/-- C2: a decodable token of a kind other than `refresh` is rejected with
`WrongTokenType`; a decodable `refresh` token is blacklisted and a new
access/refresh pair is minted for its subject (`td.email`, the subject of
`r`), after which a second refresh of the same string fails with `Revoked`
at any later instant. -/
theorem C2_refresh_rotation (crypto : CryptoProvider) (cfg : AuthConfig)
    (db : DB) (now now2 : Int) (r : String) (td : TokenData)
    (hdec : decode_token crypto db now r = .ok td) :
    (td.token_type ≠ "refresh" →
      refresh_access_token crypto cfg db now r = .error wrongTokenTypeError) ∧
    (td.token_type = "refresh" →
      refresh_access_token crypto cfg db now r =
        .ok (blacklist_token db r,
             create_access_token crypto cfg now td.email,
             create_refresh_token crypto cfg now td.email) ∧
      is_token_blacklisted (blacklist_token db r) r = true ∧
      refresh_access_token crypto cfg (blacklist_token db r) now2 r =
        .error revokedError) := by
  constructor
  · intro h
    simp [refresh_access_token, hdec, h]
  · intro h
    have hbl : is_token_blacklisted (blacklist_token db r) r = true := by
      simp [is_token_blacklisted, blacklist_token]
    refine ⟨by simp [refresh_access_token, hdec, h], hbl, ?_⟩
    simp [refresh_access_token, decode_token, hbl]

/-- Concrete evaluation of `C2_refresh_rotation`: refreshing `"ref-tok"`
once succeeds and blacklists it; the immediate second refresh fails with
`Revoked`. -/
theorem C2_refresh_rotation_witness :
    refresh_access_token cryptoFix cfgFix (blacklist_token dbEmpty "ref-tok") 50
      "ref-tok" = .error revokedError :=
  ((C2_refresh_rotation cryptoFix cfgFix dbEmpty 0 50 "ref-tok"
      ⟨"a@x.com", "refresh", 100⟩ (by decide)).2 (by decide)).2.2

/-- Successful refresh prepends the presented token to the blacklist. -/
theorem refresh_ok_blacklist (crypto : CryptoProvider) (cfg : AuthConfig)
    (db : DB) (now : Int) (t0 : String) (db1 : DB) (a b : String)
    (h : refresh_access_token crypto cfg db now t0 = .ok (db1, a, b)) :
    db1.blacklist = t0 :: db.blacklist := by
  unfold refresh_access_token at h
  split at h
  · exact Except.noConfusion h
  · split at h
    · exact Except.noConfusion h
    · injection h with h2
      injection h2 with h3 h4
      rw [← h3]
      simp [blacklist_token]

/-- Successful email verification does not touch the blacklist. -/
theorem verify_email_ok_blacklist (db : DB) (e c : String) (db1 : DB)
    (m : String) (h : verify_email db e c = .ok (db1, m)) :
    db1.blacklist = db.blacklist := by
  unfold verify_email at h
  split at h
  · exact Except.noConfusion h
  · injection h with h2
    injection h2 with h3 h4
    rw [← h3]
    simp [remove_verification_code, mark_user_as_verified]

/-- The password-reset attempt does not touch the blacklist. -/
theorem request_reset_attempt_blacklist (crypto : CryptoProvider)
    (emailp : EmailProvider) (db : DB) (now : Int) (email : String) :
    ((request_password_reset_attempt crypto emailp db now email).1).blacklist =
      db.blacklist := by
  unfold request_password_reset_attempt
  cases hg : get_user_by_email db email with
  | error err => simp
  | ok u =>
    cases hs : emailp.send_password_reset_email email
        crypto.generate_verification_code (firstName u email) with
    | error err => simp [hs, store_reset_token]
    | ok v => simp [hs, store_reset_token]

/-- `request_password_reset` does not touch the blacklist. -/
theorem request_reset_blacklist (crypto : CryptoProvider)
    (emailp : EmailProvider) (db : DB) (now : Int) (email : String) :
    ((request_password_reset crypto emailp db now email).1).blacklist =
      db.blacklist := by
  have ha := request_reset_attempt_blacklist crypto emailp db now email
  unfold request_password_reset
  split
  · next db1 m heq =>
      rw [heq] at ha
      exact ha
  · next db1 m heq =>
      rw [heq] at ha
      exact ha
  · next db1 e hne heq =>
      rw [heq] at ha
      exact ha

/-- Every operation but the cleanup sweep preserves blacklist membership. -/
theorem mem_blacklist_applyOp (crypto : CryptoProvider) (cfg : AuthConfig)
    (emailp : EmailProvider) (db : DB) (ptime : Int) (op : AuthOp) (t : String)
    (h : t ∈ db.blacklist) (hop : op ≠ AuthOp.cleanOp) :
    t ∈ (applyOp crypto cfg emailp db ptime op).blacklist := by
  cases op with
  | logoutOp u =>
    simp only [applyOp, logout, blacklist_token]
    exact List.mem_cons_of_mem u h
  | refreshOp u =>
    simp only [applyOp]
    split
    · next db1 a b heq =>
        rw [refresh_ok_blacklist crypto cfg db ptime u db1 a b heq]
        exact List.mem_cons_of_mem u h
    · exact h
  | cleanOp => exact absurd rfl hop
  | verifyEmailOp e c =>
    simp only [applyOp]
    split
    · next db1 m heq =>
        rw [verify_email_ok_blacklist db e c db1 m heq]
        exact h
    · exact h
  | requestResetOp e =>
    simp only [applyOp]
    rw [request_reset_blacklist crypto emailp db ptime e]
    exact h

/-- The cleanup sweep preserves the invariant: an entry it removes carries a
cipher expiry strictly below the sweep instant. -/
theorem blacklistedOrExpired_clean (crypto : CryptoProvider) (db : DB)
    (t : String) (bound ptime : Int)
    (h : blacklistedOrExpired crypto t bound db) (hp : ptime ≤ bound) :
    blacklistedOrExpired crypto t bound
      (clean_expired_blacklisted_tokens crypto db ptime) := by
  rcases h with h | h
  · cases hv : crypto.verify_secure_token t with
    | none =>
      left
      simp only [clean_expired_blacklisted_tokens]
      exact List.mem_filter.mpr ⟨h, by simp [hv]⟩
    | some p =>
      cases hpe : p.exp with
      | none =>
        left
        simp only [clean_expired_blacklisted_tokens]
        exact List.mem_filter.mpr ⟨h, by simp [hv, hpe]⟩
      | some e =>
        by_cases hlt : e < ptime
        · right
          exact ⟨e, by simp [tokenExp, hv, hpe], lt_of_lt_of_le hlt hp⟩
        · left
          simp only [clean_expired_blacklisted_tokens]
          exact List.mem_filter.mpr ⟨h, by simp [hv, hpe, hlt]⟩
  · right
    exact h

/-- Each traced operation preserves the invariant when it runs no later than
the bound. -/
theorem blacklistedOrExpired_applyOp (crypto : CryptoProvider)
    (cfg : AuthConfig) (emailp : EmailProvider) (db : DB) (ptime : Int)
    (op : AuthOp) (t : String) (bound : Int)
    (h : blacklistedOrExpired crypto t bound db) (hp : ptime ≤ bound) :
    blacklistedOrExpired crypto t bound (applyOp crypto cfg emailp db ptime op) := by
  cases hop : op with
  | cleanOp => exact blacklistedOrExpired_clean crypto db t bound ptime h hp
  | logoutOp u =>
    rcases h with h | h
    · exact Or.inl (mem_blacklist_applyOp crypto cfg emailp db ptime _ t h (by simp))
    · exact Or.inr h
  | refreshOp u =>
    rcases h with h | h
    · exact Or.inl (mem_blacklist_applyOp crypto cfg emailp db ptime _ t h (by simp))
    · exact Or.inr h
  | verifyEmailOp e c =>
    rcases h with h | h
    · exact Or.inl (mem_blacklist_applyOp crypto cfg emailp db ptime _ t h (by simp))
    · exact Or.inr h
  | requestResetOp e =>
    rcases h with h | h
    · exact Or.inl (mem_blacklist_applyOp crypto cfg emailp db ptime _ t h (by simp))
    · exact Or.inr h

/-- The invariant holds after any trace whose operations run no later than
the bound. -/
theorem blacklistedOrExpired_applyTrace (crypto : CryptoProvider)
    (cfg : AuthConfig) (emailp : EmailProvider) (t : String) (bound : Int)
    (trace : List (Int × AuthOp)) (db : DB)
    (h : blacklistedOrExpired crypto t bound db)
    (htime : ∀ p ∈ trace, p.1 ≤ bound) :
    blacklistedOrExpired crypto t bound (applyTrace crypto cfg emailp db trace) := by
  induction trace generalizing db with
  | nil => exact h
  | cons p rest ih =>
    exact ih (applyOp crypto cfg emailp db p.1 p.2)
      (blacklistedOrExpired_applyOp crypto cfg emailp db p.1 p.2 t bound h
        (htime p (List.mem_cons_self p rest)))
      (fun q hq => htime q (List.mem_cons_of_mem p hq))

/-- Blacklist membership survives any trace free of cleanup sweeps. -/
theorem mem_blacklist_applyTrace (crypto : CryptoProvider) (cfg : AuthConfig)
    (emailp : EmailProvider) (t : String) (trace : List (Int × AuthOp))
    (db : DB) (h : t ∈ db.blacklist)
    (hnc : ∀ p ∈ trace, p.2 ≠ AuthOp.cleanOp) :
    t ∈ (applyTrace crypto cfg emailp db trace).blacklist := by
  induction trace generalizing db with
  | nil => exact h
  | cons p rest ih =>
    exact ih (applyOp crypto cfg emailp db p.1 p.2)
      (mem_blacklist_applyOp crypto cfg emailp db p.1 p.2 t h
        (hnc p (List.mem_cons_self p rest)))
      (fun q hq => hnc q (List.mem_cons_of_mem p hq))

/-- Under the invariant, `decode_token` can never succeed: a still-blacklisted
token is `Revoked`, a purged one is expired (or rejected earlier). -/
theorem decode_not_ok_of_inv (crypto : CryptoProvider) (db : DB) (now : Int)
    (t : String) (h : blacklistedOrExpired crypto t now db) :
    ∀ td, decode_token crypto db now t ≠ .ok td := by
  intro td hc
  rcases h with h | ⟨e, he, hlt⟩
  · have hb : is_token_blacklisted db t = true := by
      exact List.elem_eq_true_of_mem h
    simp [decode_token, hb] at hc
  · cases hbv : is_token_blacklisted db t with
    | true => simp [decode_token, hbv] at hc
    | false =>
      cases hv : crypto.verify_secure_token t with
      | none => simp [decode_token, hbv, hv] at hc
      | some p =>
        obtain ⟨ps, pt, pe⟩ := p
        have hpe : pe = some e := by simpa [tokenExp, hv] using he
        subst hpe
        cases ps <;> cases pt <;> simp_all [decode_token, hbv, hv]

/-- C3 amended: once a token is blacklisted, no interleaving of the modelled
operations can make `verify` succeed on it again — and as long as no cleanup
sweep runs, the failure is exactly `Revoked`; only the cleanup sweep can
remove an entry, and it removes only entries already expired relative to the
sweep time, so the subsequent failure is `Expired` (or an earlier rejection),
never success. -/
theorem C3_amended (crypto : CryptoProvider) (cfg : AuthConfig)
    (emailp : EmailProvider) (db : DB) (t : String)
    (trace : List (Int × AuthOp)) (now_f : Int)
    (hbl : t ∈ db.blacklist)
    (htime : ∀ p ∈ trace, p.1 ≤ now_f) :
    (∀ td, decode_token crypto (applyTrace crypto cfg emailp db trace) now_f t ≠
      .ok td) ∧
    ((∀ p ∈ trace, p.2 ≠ AuthOp.cleanOp) →
      decode_token crypto (applyTrace crypto cfg emailp db trace) now_f t =
        .error revokedError) := by
  constructor
  · exact decode_not_ok_of_inv crypto _ now_f t
      (blacklistedOrExpired_applyTrace crypto cfg emailp t now_f trace db
        (Or.inl hbl) htime)
  · intro hnc
    have hm := mem_blacklist_applyTrace crypto cfg emailp t trace db hbl hnc
    have hb : is_token_blacklisted (applyTrace crypto cfg emailp db trace) t = true := by
      exact List.elem_eq_true_of_mem hm
    simp [decode_token, hb]

/-- Concrete evaluation of `C3_amended`: after `logout("exp-tok")` and an
unrelated later logout, verification still fails with `Revoked`. -/
theorem C3_amended_witness :
    decode_token cryptoFix
      (applyTrace cryptoFix cfgFix emailFix (logout dbEmpty "exp-tok").1
        [(5, AuthOp.logoutOp "other")]) 10 "exp-tok" = .error revokedError :=
  (C3_amended cryptoFix cfgFix emailFix (logout dbEmpty "exp-tok").1 "exp-tok"
    [(5, AuthOp.logoutOp "other")] 10 (by decide) (by decide)).2 (by decide)

/-- C8 fails as stated: the claim excepts only the store's user-not-found
failure from propagation, but the code swallows any `R2RException` whose
status is 404 — here a notifier failure `404 "Email service missing"` for an
existing user is absorbed into the generic success message instead of
propagating. -/
theorem C8_counterexample :
    (request_password_reset_attempt cryptoFix emailFail404 dbFix 0 "a@x.com").2 =
      .error (.r2r 404 "Email service missing") ∧
    (AuthError.r2r 404 "Email service missing") ≠ userNotFoundError ∧
    (request_password_reset cryptoFix emailFail404 dbFix 0 "a@x.com").2 =
      .ok genericResetMsg := by
  exact ⟨by decide, by decide, by decide⟩

/-- C8 amended: `request_password_reset` answers a non-existent email with
the same generic success message as an existing one; the swallow test is the
404 status of an `R2RException`, so the store's not-found failure — and any
other 404 `R2RException` arising in the flow — is absorbed into the generic
success, and a failure that is not a 404 `R2RException` propagates
unchanged. -/
theorem C8_reset_enumeration (crypto : CryptoProvider) (emailp : EmailProvider)
    (db : DB) (now : Int) (email : String) :
    (db.users.find? (fun u => u.email == email) = none →
      request_password_reset crypto emailp db now email = (db, .ok genericResetMsg)) ∧
    (∀ u, get_user_by_email db email = .ok u →
      emailp.send_password_reset_email email crypto.generate_verification_code
        (firstName u email) = .ok () →
      (request_password_reset crypto emailp db now email).2 = .ok genericResetMsg) ∧
    (∀ e, (request_password_reset_attempt crypto emailp db now email).2 = .error e →
      (∀ m, e ≠ AuthError.r2r 404 m) →
      (request_password_reset crypto emailp db now email).2 = .error e) := by
  refine ⟨?_, ?_, ?_⟩
  · intro h
    have hg : get_user_by_email db email = .error userNotFoundError := by
      simp [get_user_by_email, h]
    simp [request_password_reset, request_password_reset_attempt, hg,
      userNotFoundError]
  · intro u hu hs
    simp [request_password_reset, request_password_reset_attempt, hu, hs]
  · intro e he hne
    rcases hA : request_password_reset_attempt crypto emailp db now email with ⟨db1, r⟩
    rw [hA] at he
    have hr : r = .error e := he
    subst hr
    unfold request_password_reset
    rw [hA]
    split
    · next db2 m heq =>
        injection heq with q1 q2
        exact Except.noConfusion q2
    · next db2 m heq =>
        injection heq with q1 q2
        injection q2 with q3
        exact absurd q3 (hne m)
    · next db2 e2 hne2 heq =>
        injection heq with q1 q2
        injection q2 with q3
        rw [q3]

/-- Concrete evaluation of `C8_reset_enumeration`: a reset request for an
email with no user returns the generic success message and leaves the store
unchanged. -/
theorem C8_reset_enumeration_witness :
    request_password_reset cryptoFix emailFix dbEmpty 0 "a@x.com" =
      (dbEmpty, .ok genericResetMsg) :=
  (C8_reset_enumeration cryptoFix emailFix dbEmpty 0 "a@x.com").1 (by decide)

/-- C9: `verify_email` fails with `InvalidCode` when no user id is bound to
the presented code; when a user is bound, it returns the success message, the
bound user is marked verified in the resulting state, and the code is no
longer resolvable there. -/
theorem C9_verify_email (db : DB) (email code : String) :
    (db.verificationCodes.find? (fun p => p.1 == code) = none →
      verify_email db email code = .error invalidCodeError) ∧
    (∀ uid, get_user_id_by_verification_code db code = .ok uid →
      verify_email db email code =
        .ok (remove_verification_code (mark_user_as_verified db uid) code,
             "Email verified successfully") ∧
      (∀ u ∈ (remove_verification_code (mark_user_as_verified db uid) code).users,
        u.id = uid → u.is_verified = true) ∧
      get_user_id_by_verification_code
        (remove_verification_code (mark_user_as_verified db uid) code) code =
        .error invalidCodeError) := by
  constructor
  · intro h
    simp [verify_email, get_user_id_by_verification_code, h]
  · intro uid h
    refine ⟨by simp [verify_email, h], ?_, ?_⟩
    · intro u hu hid
      simp only [remove_verification_code, mark_user_as_verified, List.mem_map] at hu
      obtain ⟨u0, hu0, hfu⟩ := hu
      by_cases h0 : u0.id = uid
      · rw [← hfu]
        simp [h0]
      · exfalso
        rw [← hfu] at hid
        simp [h0] at hid
    · have hf : (db.verificationCodes.filter (fun p => p.1 != code)).find?
          (fun p => p.1 == code) = none := by
        rw [List.find?_eq_none]
        intro x hx
        have hpx := List.of_mem_filter hx
        simp at hpx ⊢
        exact hpx
      simp [get_user_id_by_verification_code, remove_verification_code,
        mark_user_as_verified, hf]

/-- Concrete evaluation of `C9_verify_email`: the code `"code9"` bound to the
unverified `userC` verifies successfully and is deleted. -/
theorem C9_verify_email_witness :
    verify_email dbFix "c@x.com" "code9" =
      .ok (remove_verification_code (mark_user_as_verified dbFix 3) "code9",
           "Email verified successfully") :=
  ((C9_verify_email dbFix "c@x.com" "code9").2 3 (by decide)).1

/-- C3 fails as stated: `logout("exp-tok")` blacklists the token, but an
interleaved cleanup sweep removes the (expired) entry, and the next
verification fails with `Expired`, not `Revoked` — the entry was removed and
the failure kind changed, though the token is still never valid. -/
theorem C3_counterexample :
    (applyTrace cryptoFix cfgFix emailFix (logout dbEmpty "exp-tok").1
      [(10, AuthOp.cleanOp)]).blacklist = [] ∧
    decode_token cryptoFix
      (applyTrace cryptoFix cfgFix emailFix (logout dbEmpty "exp-tok").1
        [(10, AuthOp.cleanOp)]) 10 "exp-tok" = .error expiredError ∧
    expiredError ≠ revokedError := by
  exact ⟨by decide, by decide, by decide⟩

